import Mathlib

/-!
Shallow embedding of the vulnzap-lib TypeScript client
(`src/client/system/cache.ts`, `src/client/VulnzapClient.ts`, and the
`VulnzapAPI` class with `listenForCompletion`), together with proofs of the
behavioural properties stated about it.

Effectful code is modelled by explicit state passing (the filesystem model
`FS`) and by action traces (`List`s of `Action` values recording emissions,
cache writes, fetches, timer resets and so on), in the order the code
performs them.  JavaScript truthiness of strings and optional values is
modelled explicitly.
-/

namespace Vulnzap

/-! ## JavaScript primitives -/

/-- JS truthiness of a string: the empty string is falsy. -/
def strTruthy (s : String) : Bool := s ≠ ""

/-- JS truthiness of a possibly-`undefined` string field. -/
def optTruthy : Option String → Bool
  | none => false
  | some s => strTruthy s

/-- JS `a || b` for a string `a` and default string `b`. -/
def jsOrStr (a b : String) : String := if strTruthy a then a else b

/-- JS `a || b` where `a` may be `undefined` and `b` is a string. -/
def jsOrOpt (a : Option String) (b : String) : String :=
  match a with
  | none => b
  | some s => if strTruthy s then s else b

/-- JS `a || b` where `a : string` and `b` may be `undefined`
(`jobId || eventData.jobId`): the result may still be `undefined`. -/
def jsOrStrOpt (a : String) (b : Option String) : Option String :=
  if strTruthy a then some a else b

/-- Whether `pat` is an initial segment of `s`. -/
def startsWithList (pat s : List Char) : Bool :=
  match pat, s with
  | [], _ => true
  | _ :: _, [] => false
  | p :: ps, c :: cs => p = c && startsWithList ps cs

/-- Whether `pat` occurs contiguously inside `s`. -/
def containsSeq (pat : List Char) : List Char → Bool
  | [] => pat.isEmpty
  | c :: cs => startsWithList pat (c :: cs) || containsSeq pat cs

/-- JS `String.prototype.includes`: substring containment. -/
def jsIncludes (s sub : String) : Bool := containsSeq sub.data s.data

/-- JS `String.prototype.startsWith`. -/
def jsStartsWith (s pre : String) : Bool := startsWithList pre.data s.data

/-- JS `String.prototype.slice(n)`: drop the first `n` characters. -/
def strDrop (s : String) (n : Nat) : String := ⟨s.data.drop n⟩

/-- First-occurrence replacement of a single character, the behaviour of the
JS `String.prototype.replace` with a one-character string pattern
(`repository.replace('/', '_')` in `getCacheDirectoryForType`). -/
def replaceFirstChar (sep rep : Char) : List Char → List Char
  | [] => []
  | c :: cs => if c = sep then rep :: cs else c :: replaceFirstChar sep rep cs

/-- The sanitized repository path component computed in
`VulnzapCache.getCacheDirectoryForType`: `repository.replace('/', '_')`. -/
def sanitizeRepo (repository : String) : String :=
  ⟨replaceFirstChar '/' '_' repository.data⟩

/-! ## Cache Store (`src/client/system/cache.ts`) -/

/-- Scan mode discriminator (`ScanMode` in `src/types/common`). -/
inductive ScanMode where
  | commit
  | repo
deriving DecidableEq, Repr

/-- Opaque JSON value for the `results` field of a cache entry
(`{}` for commit initiation, `null` for repo initiation, or the
fetched results). -/
inductive ResultsVal where
  | emptyObj
  | nullVal
  | val (s : String)
deriving DecidableEq, Repr

/-- `ScanCacheEntry` from `src/types/scan`. -/
structure ScanCacheEntry where
  jobId : String
  timestamp : Nat
  status : String
  resolved : Bool
  resolved_timestamp : Nat
  repository : String
  branch : String
  results : ResultsVal
deriving DecidableEq, Repr

/-- A directory path as the list of its segments (what `path.join`
concatenates). -/
abbrev DirPath := List String

/-- Filesystem model: regular files keyed by (directory, file name) with
string contents, plus the set of existing directories.  Writes are
whole-file overwrites, as in the code. -/
structure FS where
  files : List ((DirPath × String) × String)
  dirs : List DirPath
deriving DecidableEq, Repr

/-- Overwriting insert into the file map (`fs.writeFile`). -/
def setFile (key : DirPath × String) (content : String) :
    List ((DirPath × String) × String) → List ((DirPath × String) × String)
  | [] => [(key, content)]
  | (k, c) :: rest =>
      if k = key then (key, content) :: rest
      else (k, c) :: setFile key content rest

/-- Read a file from the file map. -/
def getFile (key : DirPath × String) :
    List ((DirPath × String) × String) → Option String
  | [] => none
  | (k, c) :: rest => if k = key then some c else getFile key rest

/-- All the nonempty ancestor paths of a directory, itself included
(the directories `fs.mkdir(dir, { recursive: true })` guarantees). -/
def ancestorDirs (d : DirPath) : List DirPath :=
  (List.range d.length).map (fun i => d.take (i + 1))

/-- Insert a directory into the set if absent. -/
def insertDir (d : DirPath) (ds : List DirPath) : List DirPath :=
  if d ∈ ds then ds else d :: ds

/-- `fs.mkdir(dir, { recursive: true })`: create the directory and every
missing ancestor; succeeds when they already exist. -/
def mkdirRecursive (d : DirPath) (fs : FS) : FS :=
  { fs with dirs := (ancestorDirs d).foldr insertDir fs.dirs }

/-- `VulnzapCache.getCacheDirectoryForType`: the per-(mode, repository)
cache directory, with the sanitized repository component. -/
def getCacheDirectoryForType (cacheDirectory : DirPath) (type : ScanMode)
    (repository : String) : DirPath :=
  let repoPath := sanitizeRepo repository
  match type with
  | .commit => cacheDirectory ++ ["scans", repoPath, "commits"]
  | .repo => cacheDirectory ++ ["scans", repoPath, "full"]

/-- `VulnzapCache.ensureDirectory`: `fs.access` the directory, and on
failure `mkdir` it recursively. -/
def ensureDirectory (cacheDirectory : DirPath) (type : ScanMode)
    (repository : String) (fs : FS) : FS :=
  let dir := getCacheDirectoryForType cacheDirectory type repository
  if dir ∈ fs.dirs then fs else mkdirRecursive dir fs

/-- `VulnzapCache.getFilePath`: `path.join(dir, identifier + ".json")`. -/
def getFilePath (cacheDirectory : DirPath) (type : ScanMode)
    (repository : String) (identifier : String) : DirPath × String :=
  (getCacheDirectoryForType cacheDirectory type repository,
   identifier ++ ".json")

/-- Minimal JSON string rendering used by `JSON.stringify` on the entry's
string fields (no escaping needed for the identifiers involved). -/
def jsonStr (s : String) : String := "\"" ++ s ++ "\""

/-- Rendering of the `results` field. -/
def jsonResults : ResultsVal → String
  | .emptyObj => "\x7b\x7d"
  | .nullVal => "null"
  | .val s => jsonStr s

/-- `JSON.stringify(data, null, 2)` on a `ScanCacheEntry`: deterministic
serialization, fields in declaration order, two-space indentation. -/
def stringifyEntry (e : ScanCacheEntry) : String :=
  "\x7b\n  \"jobId\": " ++ jsonStr e.jobId ++
  ",\n  \"timestamp\": " ++ toString e.timestamp ++
  ",\n  \"status\": " ++ jsonStr e.status ++
  ",\n  \"resolved\": " ++ (if e.resolved then "true" else "false") ++
  ",\n  \"resolved_timestamp\": " ++ toString e.resolved_timestamp ++
  ",\n  \"repository\": " ++ jsonStr e.repository ++
  ",\n  \"branch\": " ++ jsonStr e.branch ++
  ",\n  \"results\": " ++ jsonResults e.results ++
  "\n\x7d"

/-- `VulnzapCache.save`: `ensureDirectory` then `fs.writeFile` of the
serialized entry (an overwrite). -/
def cacheSave (cacheDirectory : DirPath) (type : ScanMode)
    (repository : String) (identifier : String) (data : ScanCacheEntry)
    (fs : FS) : FS :=
  let fs1 := ensureDirectory cacheDirectory type repository fs
  let filePath := getFilePath cacheDirectory type repository identifier
  { fs1 with files := setFile filePath (stringifyEntry data) fs1.files }

/-! ## Session Watcher (`VulnzapClient.securityAssistant`) -/

/-- A JavaScript value as far as `typeof v !== "number"` can observe it:
a number, `undefined` (the field was omitted), or any non-number value. -/
inductive JsVal where
  | num (n : Int)
  | undef
  | other
deriving DecidableEq, Repr

/-- `SecurityAssistantOptions` (`src/types/client`): `timeout` is declared
optional, hence modelled as an arbitrary `JsVal`. -/
structure SecurityAssistantOptions where
  dirPath : String
  sessionId : String
  timeout : JsVal
deriving DecidableEq, Repr

/-- Session state persisted by the watcher
(`{ sessionId, path, timestamp, files }`). -/
structure SessionState where
  sessionId : String
  path : String
  timestamp : Nat
  files : List String
deriving DecidableEq, Repr

/-- The observable actions of the watcher callback and of
`securityAssistant` itself, in program order. -/
inductive SAAction where
  | startWatcher (dirPath : String)
  | armTimer (ms : Int)
  | resetTimer
  | scanIncrementalReq (sessionId : String) (path : String)
      (content : String) (changed : Bool)
  | saveSession (sessionId : String) (s : SessionState)
  | emitError (sessionId : String)
deriving DecidableEq, Repr

/-- The noise filter of the watcher callback: JS-truthy filename whose text
contains none of the excluded substrings. -/
def passesFilter (filename : String) : Bool :=
  strTruthy filename &&
  !(jsIncludes filename "node_modules") &&
  !(jsIncludes filename ".git") &&
  !(jsIncludes filename ".md") &&
  !(jsIncludes filename ".DS_Store") &&
  !(jsIncludes filename ".lock")

/-- The tautological new-vs-modified check of the watcher:
`session.files.includes(filename) || !session.files.includes(filename)`. -/
def isChangedCheck (sessionFiles : List String) (filename : String) : Bool :=
  sessionFiles.contains filename || !(sessionFiles.contains filename)

/-- One invocation of the `fs.watch` callback in `securityAssistant`
(`VulnzapClient.ts` lines 191-255), as an action trace.  External effects
are parameters: `statRes` is the `fs.promises.stat` outcome (`isFile` on
success), `readRes` the `readFile` outcome, `session0` the stored session
looked up by `cache.getSession`, `apiOk` whether `api.scanIncremental`
resolves. -/
def handleFileEvent (opts : SecurityAssistantOptions)
    (filename : Option String) (statRes : Except String Bool)
    (readRes : Except String String) (session0 : Option SessionState)
    (apiOk : Bool) (now : Nat) : List SAAction :=
  match filename with
  | none => []
  | some fn =>
    if passesFilter fn then
      SAAction.resetTimer ::
      (match statRes with
       | .error _ => [SAAction.emitError opts.sessionId]
       | .ok isFile =>
         if isFile then
           match readRes with
           | .error _ => [SAAction.emitError opts.sessionId]
           | .ok content =>
             let session := session0.getD
               { sessionId := opts.sessionId, path := opts.dirPath,
                 timestamp := now, files := [] }
             let isChanged := isChangedCheck session.files fn
             SAAction.scanIncrementalReq opts.sessionId fn content isChanged ::
             (if apiOk then
                (if !isChanged then
                  [SAAction.saveSession opts.sessionId
                    { session with files := session.files ++ [fn] }]
                 else [])
              else [SAAction.emitError opts.sessionId])
         else [])
    else []

/-- `VulnzapClient.securityAssistant` up to and including watcher start and
initial timer arming: validation fails closed (`false`, no actions); on
success the watcher is started and the idle timer armed.  `dirExists`
models `fs.existsSync(options.dirPath)`. -/
def securityAssistant (opts : SecurityAssistantOptions)
    (dirExists : Bool) : Bool × List SAAction :=
  if !dirExists then (false, [])
  else
    match opts.timeout with
    | JsVal.num n =>
      if n < 10000 || n > 600000 then (false, [])
      else (true, [SAAction.startWatcher opts.dirPath, SAAction.armTimer n])
    | _ => (false, [])

/-! ## Backend Gateway and Stream Listener (`VulnzapAPI`) -/

/-- A parsed SSE frame: a JSON object with the fields the listener reads.
Absent fields are `none` (JS `undefined`). -/
structure Frame where
  type : Option String
  jobId : Option String
  scanId : Option String
  message : Option String
deriving DecidableEq, Repr

/-- `ListenerOptions` (`src/types/scan`). -/
structure ListenerOptions where
  jobId : String
  commitHash : Option String
  repository : String
  branch : Option String
  mode : ScanMode
deriving DecidableEq, Repr

/-- The payload of an emitted client event
(`{ jobId, message, data }`; `data` is the frame when one is attached). -/
structure EventPayload where
  jobId : Option String
  message : Option String
  data : Option Frame
deriving DecidableEq, Repr

/-- `ScanApiJobResponse` (`src/types/scan`), the authoritative fetch
result. -/
structure ScanApiJobResponse where
  jobId : String
  commitHash : String
  projectId : String
  progress : Nat
  results : ResultsVal
  metadata : String
  startedAt : Nat
  completedAt : Nat
  status : String
deriving DecidableEq, Repr

/-- Observable actions of the `VulnzapAPI` methods, in program order. -/
inductive Action where
  | emit (event : String) (payload : EventPayload)
  | fetchScan (jobId : String)
  | cacheSaveEntry (mode : ScanMode) (repository : String)
      (identifier : String) (entry : ScanCacheEntry)
  | cancelReader
deriving DecidableEq, Repr

/-- `ScanInitResponse` data (`{ jobId, status }`). -/
structure ScanInitData where
  jobId : String
  status : String
deriving DecidableEq, Repr

/-- A backend HTTP response to an initiation call: status line plus the
`data` object of the success envelope. -/
structure InitHttpResponse where
  status : Nat
  statusText : String
  jobId : String
  jobStatus : String
deriving DecidableEq, Repr

/-- `CommitScanPayload` (`src/types/scan`). -/
structure CommitScanPayload where
  commitHash : String
  repository : String
  branch : Option String
  userIdentifier : String
deriving DecidableEq, Repr

/-- `RepositoryScanPayload` (`src/types/scan`). -/
structure RepositoryScanPayload where
  userIdentifier : String
  repository : String
  branch : Option String
deriving DecidableEq, Repr

/-- `VulnzapAPI.scanCommit`: on non-200 status, throw (no event emitted);
on empty `jobId`, throw; otherwise save the unresolved entry to the cache
and return success. -/
def scanCommitM (payload : CommitScanPayload) (resp : InitHttpResponse)
    (now : Nat) : List Action × Except String ScanInitData :=
  if resp.status ≠ 200 then
    ([], .error ("Failed to scan commit: " ++ resp.statusText))
  else if !(strTruthy resp.jobId) then
    ([], .error "Invalid response from API")
  else
    ([Action.cacheSaveEntry .commit payload.repository payload.commitHash
        { jobId := resp.jobId, timestamp := now, status := resp.jobStatus,
          resolved := false, resolved_timestamp := 0,
          repository := jsOrStr payload.repository "",
          branch := jsOrOpt payload.branch "", results := .emptyObj }],
     .ok { jobId := resp.jobId, status := resp.jobStatus })

/-- `VulnzapAPI.scanRepository`: on non-200 status, emit an `error` event
and then throw; on empty `jobId`, throw; otherwise save the unresolved
entry and return success. -/
def scanRepositoryM (payload : RepositoryScanPayload)
    (resp : InitHttpResponse) (now : Nat) :
    List Action × Except String ScanInitData :=
  if resp.status ≠ 200 then
    ([Action.emit "error"
        { jobId := some payload.repository,
          message := some ("Failed to scan repository: " ++ resp.statusText),
          data := none }],
     .error ("Failed to scan repository: " ++ resp.statusText))
  else if !(strTruthy resp.jobId) then
    ([], .error "Invalid response from API")
  else
    ([Action.cacheSaveEntry .repo payload.repository resp.jobId
        { jobId := resp.jobId, timestamp := now, status := resp.jobStatus,
          resolved := false, resolved_timestamp := 0,
          repository := payload.repository,
          branch := jsOrOpt payload.branch "", results := .nullVal }],
     .ok { jobId := resp.jobId, status := resp.jobStatus })

/-- The normalization at the top of the frame handler in
`listenForCompletion`: `if (eventData.scanId && !eventData.jobId)` promote
`scanId` to `jobId` and delete `scanId`. -/
def normalizeFrame (f : Frame) : Frame :=
  if optTruthy f.scanId && !(optTruthy f.jobId) then
    { f with jobId := f.scanId, scanId := none }
  else f

/-- Classification and handling of one parsed frame in
`listenForCompletion` (`part_004` lines 340-398): the action trace in
program order, and whether the stream loop terminates (`return` after a
`completed` frame).  `api` gives the result of a successful
`getScanFromApi` call. -/
def processFrame (opts : ListenerOptions) (f : Frame)
    (api : String → ScanApiJobResponse) (now : Nat) :
    List Action × Bool :=
  let ev := normalizeFrame f
  if ev.type = some "completed" then
    let emitted := Action.emit "completed"
      { jobId := ev.jobId, message := some "Scan completed", data := some ev }
    let scanJobId := jsOrStrOpt opts.jobId ev.jobId
    match scanJobId with
    | some sjid =>
      if strTruthy sjid then
        let scan := api sjid
        let identifier :=
          match opts.mode with
          | .commit => (opts.commitHash).getD ""
          | .repo => sjid
        (emitted ::
         Action.fetchScan sjid ::
         Action.cacheSaveEntry opts.mode opts.repository identifier
           { jobId := scan.jobId, timestamp := now, status := scan.status,
             resolved := true, resolved_timestamp := now,
             repository := jsOrStr opts.repository "",
             branch := jsOrOpt opts.branch "", results := scan.results } ::
         [Action.cancelReader], true)
      else ([emitted, Action.cancelReader], true)
    | none => ([emitted, Action.cancelReader], true)
  else if ev.type = some "progress" || ev.type = some "connected" then
    ([Action.emit "update"
        { jobId := ev.jobId, message := ev.message, data := some ev }],
     false)
  else if ev.type = some "error" then
    ([Action.emit "error"
        { jobId := some (jsOrStr opts.jobId "unknown"),
          message := ev.message, data := some ev }],
     false)
  else
    ([Action.emit "error"
        { jobId := some (jsOrStr opts.jobId "unknown"),
          message := some "Unknown event type", data := some ev }],
     false)

/-- Handling of one line of the stream in `listenForCompletion`: only
lines prefixed `data: ` are considered; `parse` models `JSON.parse` on the
rest of the line, with `none` for a parse failure, which is caught and
reported as a single `error` event without stopping the loop. -/
def processLine (parse : String → Option Frame) (opts : ListenerOptions)
    (api : String → ScanApiJobResponse) (now : Nat) (line : String) :
    List Action × Bool :=
  if jsStartsWith line "data: " then
    match parse (strDrop line 6) with
    | some f => processFrame opts f api now
    | none =>
      ([Action.emit "error"
          { jobId := some (jsOrStr opts.jobId "unknown"),
            message := some "Failed to parse SSE data", data := none }],
       false)
  else ([], false)

/-- The stream loop over complete lines: lines are handled in order and
the loop stops as soon as a handled frame terminates it. -/
def processLines (parse : String → Option Frame) (opts : ListenerOptions)
    (api : String → ScanApiJobResponse) (now : Nat) :
    List String → List Action
  | [] => []
  | line :: rest =>
    let p := processLine parse opts api now line
    if p.2 then p.1 else p.1 ++ processLines parse opts api now rest

/-! ## Helper lemmas -/

theorem replaceFirstChar_of_not_mem (sep rep : Char) (xs : List Char)
    (h : sep ∉ xs) : replaceFirstChar sep rep xs = xs := by
  induction xs with
  | nil => rfl
  | cons c cs ih =>
    simp only [List.mem_cons, not_or] at h
    simp [replaceFirstChar, Ne.symm h.1, ih h.2]

theorem replaceFirstChar_append (sep rep : Char) (xs ys : List Char)
    (h : sep ∉ xs) :
    replaceFirstChar sep rep (xs ++ sep :: ys) = xs ++ rep :: ys := by
  induction xs with
  | nil => simp [replaceFirstChar]
  | cons c cs ih =>
    simp only [List.mem_cons, not_or] at h
    simp [replaceFirstChar, Ne.symm h.1, ih h.2]

theorem setFile_idem (k : DirPath × String) (c : String)
    (l : List ((DirPath × String) × String)) :
    setFile k c (setFile k c l) = setFile k c l := by
  induction l with
  | nil => simp [setFile]
  | cons p rest ih =>
    obtain ⟨q, d⟩ := p
    by_cases hq : q = k
    · simp [setFile, hq]
    · simp [setFile, hq, ih]

theorem getFile_setFile (k : DirPath × String) (c : String)
    (l : List ((DirPath × String) × String)) :
    getFile k (setFile k c l) = some c := by
  induction l with
  | nil => simp [setFile, getFile]
  | cons p rest ih =>
    obtain ⟨q, d⟩ := p
    by_cases hq : q = k
    · simp [setFile, hq, getFile]
    · simp [setFile, hq, getFile, ih]

theorem mem_foldr_insertDir_left (d : DirPath) (l : List DirPath)
    (ds : List DirPath) (h : d ∈ l) : d ∈ l.foldr insertDir ds := by
  induction l with
  | nil => simp at h
  | cons a rest ih =>
    simp only [List.foldr_cons]
    rcases List.mem_cons.mp h with h1 | h2
    · subst h1
      unfold insertDir
      split
      · assumption
      · exact List.mem_cons_self _ _
    · have := ih h2
      unfold insertDir
      split
      · assumption
      · exact List.mem_cons_of_mem _ this

theorem mem_foldr_insertDir_right (d : DirPath) (l : List DirPath)
    (ds : List DirPath) (h : d ∈ ds) : d ∈ l.foldr insertDir ds := by
  induction l with
  | nil => simpa using h
  | cons a rest ih =>
    simp only [List.foldr_cons]
    unfold insertDir
    split
    · exact ih
    · exact List.mem_cons_of_mem _ ih

theorem self_mem_ancestorDirs (d : DirPath) (h : d ≠ []) :
    d ∈ ancestorDirs d := by
  unfold ancestorDirs
  have hlen : 0 < d.length := List.length_pos.mpr h
  refine List.mem_map.mpr ⟨d.length - 1, ?_, ?_⟩
  · exact List.mem_range.mpr (by omega)
  · have : d.length - 1 + 1 = d.length := by omega
    rw [this, List.take_length]

theorem getCacheDirectoryForType_ne_nil (root : DirPath) (type : ScanMode)
    (repo : String) : getCacheDirectoryForType root type repo ≠ [] := by
  cases type <;> simp [getCacheDirectoryForType]

theorem dir_mem_ensureDirectory (root : DirPath) (type : ScanMode)
    (repo : String) (fs : FS) :
    getCacheDirectoryForType root type repo ∈
      (ensureDirectory root type repo fs).dirs := by
  unfold ensureDirectory
  by_cases hmem : getCacheDirectoryForType root type repo ∈ fs.dirs
  · simp [hmem]
  · simp only [hmem, if_neg, not_false_iff]
    exact mem_foldr_insertDir_left _ _ _
      (self_mem_ancestorDirs _ (getCacheDirectoryForType_ne_nil root type repo))

theorem FS_ext (u v : FS) (h1 : u.files = v.files) (h2 : u.dirs = v.dirs) :
    u = v := by
  cases u
  cases v
  simp_all

theorem cacheSave_files (root : DirPath) (type : ScanMode) (repo id : String)
    (entry : ScanCacheEntry) (fs : FS) :
    (cacheSave root type repo id entry fs).files
      = setFile (getFilePath root type repo id) (stringifyEntry entry)
          (ensureDirectory root type repo fs).files := rfl

theorem cacheSave_dirs (root : DirPath) (type : ScanMode) (repo id : String)
    (entry : ScanCacheEntry) (fs : FS) :
    (cacheSave root type repo id entry fs).dirs
      = (ensureDirectory root type repo fs).dirs := rfl

theorem normalizeFrame_type (f : Frame) :
    (normalizeFrame f).type = f.type := by
  unfold normalizeFrame
  split <;> rfl

theorem normalizeFrame_message (f : Frame) :
    (normalizeFrame f).message = f.message := by
  unfold normalizeFrame
  split <;> rfl

/-! ## Claim C4: repository sanitization -/

/-- C4 counterexample: the claim says every path separator is replaced, so
that `"a/b/c"` sanitizes to `"a_b_c"` and the result contains no
separator.  The code's `repository.replace('/', '_')` replaces only the
first occurrence: `"a/b/c"` sanitizes to `"a_b/c"`, which still contains a
separator and differs from `"a_b_c"`. -/
theorem sanitizeRepo_not_global_counterexample :
    sanitizeRepo "a/b/c" = "a_b/c" ∧
    jsIncludes (sanitizeRepo "a/b/c") "/" = true ∧
    sanitizeRepo "a/b/c" ≠ "a_b_c" := by
  refine ⟨by decide, by decide, by decide⟩

/-- C4 (amended): the sanitized repository path component replaces only
the FIRST path-separator occurrence in the name with an underscore: a name
without separators is unchanged, and a name whose text before the first
separator is `a` and after it is `b` sanitizes to `a ++ "_" ++ b` (so a
single-separator name such as `owner/repo` yields a separator-free
component, while later separators of multi-segment names are kept). -/
theorem sanitizeRepo_replaces_first_separator (a b r : String)
    (ha : '/' ∉ a.data) (hr : '/' ∉ r.data) :
    sanitizeRepo (a ++ "/" ++ b) = a ++ "_" ++ b ∧ sanitizeRepo r = r := by
  constructor
  · apply String.ext
    show replaceFirstChar '/' '_' (a ++ "/" ++ b).data = (a ++ "_" ++ b).data
    rw [String.data_append, String.data_append, String.data_append,
      String.data_append, List.append_assoc, List.append_assoc]
    exact replaceFirstChar_append '/' '_' a.data b.data ha
  · apply String.ext
    exact replaceFirstChar_of_not_mem '/' '_' r.data hr

/-- C4 witness: the amended theorem at `a = "owner"`, `b = "repo"`,
`r = "plain"`. -/
theorem sanitizeRepo_replaces_first_separator_witness :
    sanitizeRepo ("owner" ++ "/" ++ "repo") = "owner" ++ "_" ++ "repo" ∧
    sanitizeRepo "plain" = "plain" :=
  sanitizeRepo_replaces_first_separator "owner" "repo" "plain"
    (by decide) (by decide)

/-! ## Claim C9: cache.save is an idempotent upsert -/

/-- C9: `cacheSave` is an idempotent upsert.  Saving twice with the same
key and the same entry leaves the filesystem (hence the stored file,
byte-for-byte) exactly as a single save leaves it; the stored file's
content is the serialized entry; the target cache directory exists after a
save whether or not it existed before; and when it was missing, every
ancestor directory has been created as well. -/
theorem cacheSave_idempotent_upsert (root : DirPath) (type : ScanMode)
    (repo id : String) (entry : ScanCacheEntry) (fs : FS) :
    cacheSave root type repo id entry (cacheSave root type repo id entry fs)
      = cacheSave root type repo id entry fs ∧
    getFile (getFilePath root type repo id)
      (cacheSave root type repo id entry fs).files
      = some (stringifyEntry entry) ∧
    getCacheDirectoryForType root type repo
      ∈ (cacheSave root type repo id entry fs).dirs ∧
    (getCacheDirectoryForType root type repo ∉ fs.dirs →
      ∀ d ∈ ancestorDirs (getCacheDirectoryForType root type repo),
        d ∈ (cacheSave root type repo id entry fs).dirs) := by
  have hdirs1 : (cacheSave root type repo id entry fs).dirs
      = (ensureDirectory root type repo fs).dirs := rfl
  have hmem1 : getCacheDirectoryForType root type repo
      ∈ (cacheSave root type repo id entry fs).dirs := by
    rw [hdirs1]
    exact dir_mem_ensureDirectory root type repo fs
  have hens2 : ensureDirectory root type repo
      (cacheSave root type repo id entry fs)
      = cacheSave root type repo id entry fs := by
    unfold ensureDirectory
    simp [hmem1]
  refine ⟨?_, ?_, hmem1, ?_⟩
  · apply FS_ext
    · rw [cacheSave_files root type repo id entry
        (cacheSave root type repo id entry fs), hens2,
        cacheSave_files root type repo id entry fs, setFile_idem]
    · rw [cacheSave_dirs root type repo id entry
        (cacheSave root type repo id entry fs), hens2]
  · rw [cacheSave_files root type repo id entry fs]
    exact getFile_setFile _ _ _
  · intro hnot d hd
    rw [hdirs1]
    unfold ensureDirectory
    simp only [hnot, if_neg, not_false_iff]
    exact mem_foldr_insertDir_left _ _ _ hd

/-- C9 witness: the idempotence theorem applied to a concrete key, entry
and an empty filesystem. -/
theorem cacheSave_idempotent_upsert_witness :
    cacheSave ["home", ".vulnzap", "client"] .commit "owner/repo" "abc123"
        { jobId := "j1", timestamp := 5, status := "queued",
          resolved := false, resolved_timestamp := 0,
          repository := "owner/repo", branch := "main",
          results := .emptyObj }
        (cacheSave ["home", ".vulnzap", "client"] .commit "owner/repo"
          "abc123"
          { jobId := "j1", timestamp := 5, status := "queued",
            resolved := false, resolved_timestamp := 0,
            repository := "owner/repo", branch := "main",
            results := .emptyObj } ⟨[], []⟩)
      = cacheSave ["home", ".vulnzap", "client"] .commit "owner/repo"
          "abc123"
          { jobId := "j1", timestamp := 5, status := "queued",
            resolved := false, resolved_timestamp := 0,
            repository := "owner/repo", branch := "main",
            results := .emptyObj } ⟨[], []⟩ ∧
    getFile (getFilePath ["home", ".vulnzap", "client"] .commit
        "owner/repo" "abc123")
      (cacheSave ["home", ".vulnzap", "client"] .commit "owner/repo"
        "abc123"
        { jobId := "j1", timestamp := 5, status := "queued",
          resolved := false, resolved_timestamp := 0,
          repository := "owner/repo", branch := "main",
          results := .emptyObj } ⟨[], []⟩).files
      = some (stringifyEntry
        { jobId := "j1", timestamp := 5, status := "queued",
          resolved := false, resolved_timestamp := 0,
          repository := "owner/repo", branch := "main",
          results := .emptyObj }) ∧
    getCacheDirectoryForType ["home", ".vulnzap", "client"] .commit
        "owner/repo"
      ∈ (cacheSave ["home", ".vulnzap", "client"] .commit "owner/repo"
        "abc123"
        { jobId := "j1", timestamp := 5, status := "queued",
          resolved := false, resolved_timestamp := 0,
          repository := "owner/repo", branch := "main",
          results := .emptyObj } ⟨[], []⟩).dirs := by
  have h := cacheSave_idempotent_upsert ["home", ".vulnzap", "client"]
    .commit "owner/repo" "abc123"
    { jobId := "j1", timestamp := 5, status := "queued",
      resolved := false, resolved_timestamp := 0,
      repository := "owner/repo", branch := "main",
      results := .emptyObj } ⟨[], []⟩
  exact ⟨h.1, h.2.1, h.2.2.1⟩

/-! ## Claim C7: securityAssistant validation -/

/-- C7: `securityAssistant` fails closed — it returns `false` with no
watcher started and no timer armed whenever the directory does not exist
or the timeout is a number outside `[10000, 600000]`; conversely, when the
directory exists, the boundary timeouts `10000` and `600000` pass
validation: the call returns `true`, starts the directory watcher and arms
the idle timer. -/
theorem securityAssistant_validation (opts : SecurityAssistantOptions)
    (dirExists : Bool) (n : Int) :
    (dirExists = false → securityAssistant opts dirExists = (false, [])) ∧
    (opts.timeout = JsVal.num n → (n < 10000 ∨ n > 600000) →
      securityAssistant opts dirExists = (false, [])) ∧
    (dirExists = true → opts.timeout = JsVal.num 10000 →
      securityAssistant opts dirExists
        = (true, [SAAction.startWatcher opts.dirPath,
                  SAAction.armTimer 10000])) ∧
    (dirExists = true → opts.timeout = JsVal.num 600000 →
      securityAssistant opts dirExists
        = (true, [SAAction.startWatcher opts.dirPath,
                  SAAction.armTimer 600000])) := by
  refine ⟨?_, ?_, ?_, ?_⟩
  · intro h
    subst h
    simp [securityAssistant]
  · intro ht hrange
    cases dirExists with
    | false => simp [securityAssistant]
    | true =>
      have : (n < 10000 || n > 600000) = true := by
        rcases hrange with h | h <;> simp [h]
      simp [securityAssistant, ht, this]
  · intro hd ht
    subst hd
    simp [securityAssistant, ht]
  · intro hd ht
    subst hd
    simp [securityAssistant, ht]

/-- C7 witness: an existing directory with the boundary timeout `10000`
passes validation, and the same options rejected when the directory is
missing, as well as the below-range timeout `5000`. -/
theorem securityAssistant_validation_witness :
    securityAssistant ⟨"/proj", "sess-1", JsVal.num 10000⟩ false
      = (false, []) ∧
    securityAssistant ⟨"/proj", "sess-1", JsVal.num 5000⟩ true
      = (false, []) ∧
    securityAssistant ⟨"/proj", "sess-1", JsVal.num 10000⟩ true
      = (true, [SAAction.startWatcher "/proj",
                SAAction.armTimer 10000]) := by
  have h1 := securityAssistant_validation
    ⟨"/proj", "sess-1", JsVal.num 10000⟩ false 10000
  have h2 := securityAssistant_validation
    ⟨"/proj", "sess-1", JsVal.num 5000⟩ true 5000
  have h3 := securityAssistant_validation
    ⟨"/proj", "sess-1", JsVal.num 10000⟩ true 10000
  exact ⟨h1.1 rfl, h2.2.1 rfl (Or.inl (by decide)), h3.2.2.1 rfl rfl⟩

/-! ## Claim C10: no default timeout -/

/-- C10: although `SecurityAssistantOptions.timeout` is declared optional,
`securityAssistant` has no default: an omitted (`undefined`) timeout, a
non-number timeout, and an out-of-range numeric timeout all make the call
return `false` with no watcher started and no timer armed. -/
theorem securityAssistant_no_default_timeout (dirPath sessionId : String)
    (dirExists : Bool) :
    securityAssistant ⟨dirPath, sessionId, JsVal.undef⟩ dirExists
      = (false, []) ∧
    securityAssistant ⟨dirPath, sessionId, JsVal.other⟩ dirExists
      = (false, []) ∧
    securityAssistant ⟨dirPath, sessionId, JsVal.num 5000⟩ dirExists
      = (false, []) := by
  cases dirExists <;> simp [securityAssistant]

/-! ## Claim C8: excluded paths are filtered before any processing -/

/-- C8: a filesystem change event whose filename contains one of the
excluded substrings produces an empty action trace: no timer reset, no
stat or read, no incremental-scan request, nothing — exclusion is decided
before any other processing of the event. -/
theorem watcher_excluded_path_no_actions (opts : SecurityAssistantOptions)
    (fn : String) (statRes : Except String Bool)
    (readRes : Except String String) (session0 : Option SessionState)
    (apiOk : Bool) (now : Nat)
    (h : jsIncludes fn "node_modules" = true ∨ jsIncludes fn ".git" = true ∨
         jsIncludes fn ".md" = true ∨ jsIncludes fn ".DS_Store" = true ∨
         jsIncludes fn ".lock" = true) :
    handleFileEvent opts (some fn) statRes readRes session0 apiOk now
      = [] := by
  have hf : passesFilter fn = false := by
    unfold passesFilter
    rcases h with h | h | h | h | h <;> simp [h]
  simp [handleFileEvent, hf]

/-- C8 witness: a change under `node_modules` yields no action at all,
even with a successful stat, read and API call available. -/
theorem watcher_excluded_path_no_actions_witness :
    handleFileEvent ⟨"/proj", "sess-1", JsVal.num 10000⟩
      (some "node_modules/pkg/index.js") (Except.ok true)
      (Except.ok "content") none true 0 = [] :=
  watcher_excluded_path_no_actions ⟨"/proj", "sess-1", JsVal.num 10000⟩
    "node_modules/pkg/index.js" (Except.ok true) (Except.ok "content")
    none true 0 (Or.inl (by decide))

/-! ## Claim C3: tracked-file bookkeeping (code bug) -/

/-- C3 (code bug evidence): the new-vs-modified check
`session.files.includes(filename) || !session.files.includes(filename)`
is tautologically `true`, so the guarded branch that appends the path to
the session's tracked-file set and persists the session is dead code.  At
the failing input — a first change to `a.js` in a fresh session with a
successful incremental-scan call — the trace contains the scan request but
no `saveSession`, and the same holds for any session and filename. -/
theorem watcher_never_records_tracked_file :
    handleFileEvent ⟨"/proj", "sess-1", JsVal.num 10000⟩ (some "a.js")
        (Except.ok true) (Except.ok "let x = 1") none true 0
      = [SAAction.resetTimer,
         SAAction.scanIncrementalReq "sess-1" "a.js" "let x = 1" true] ∧
    (∀ files fn, isChangedCheck files fn = true) ∧
    (∀ (opts : SecurityAssistantOptions) (fn content : String)
        (session0 : Option SessionState) (now : Nat) (sid : String)
        (s : SessionState),
      SAAction.saveSession sid s
        ∉ handleFileEvent opts (some fn) (Except.ok true)
            (Except.ok content) session0 true now) := by
  have hchanged : ∀ (files : List String) (fn : String),
      isChangedCheck files fn = true := by
    intro files fn
    unfold isChangedCheck
    cases h : files.contains fn <;> simp [h]
  refine ⟨by decide, hchanged, ?_⟩
  intro opts fn content session0 now sid s
  unfold handleFileEvent
  by_cases hf : passesFilter fn = true
  · simp [hf, hchanged]
  · simp [hf]

/-! ## Claim C1: completed-frame handling order -/

/-- C1: when the listener handles a frame of type `completed`, the
`completed` event carrying the raw (normalized) frame is the first action
of the trace — so no cache write can precede it and a cache fault cannot
prevent it — and, whenever the listener is bound to a non-empty job id,
the trace is exactly: emit `completed`, authoritative fetch via
`getScanFromApi`, cache upsert with `resolved = true` and the fetched
results, reader cancellation, with the loop terminating. -/
theorem listener_completed_order (opts : ListenerOptions) (f : Frame)
    (api : String → ScanApiJobResponse) (now : Nat)
    (h1 : (normalizeFrame f).type = some "completed") :
    (processFrame opts f api now).1.head?
      = some (Action.emit "completed"
          { jobId := (normalizeFrame f).jobId,
            message := some "Scan completed",
            data := some (normalizeFrame f) }) ∧
    (strTruthy opts.jobId = true →
      processFrame opts f api now
        = ([Action.emit "completed"
              { jobId := (normalizeFrame f).jobId,
                message := some "Scan completed",
                data := some (normalizeFrame f) },
            Action.fetchScan opts.jobId,
            Action.cacheSaveEntry opts.mode opts.repository
              (match opts.mode with
               | .commit => (opts.commitHash).getD ""
               | .repo => opts.jobId)
              { jobId := (api opts.jobId).jobId, timestamp := now,
                status := (api opts.jobId).status, resolved := true,
                resolved_timestamp := now,
                repository := jsOrStr opts.repository "",
                branch := jsOrOpt opts.branch "",
                results := (api opts.jobId).results },
            Action.cancelReader], true)) := by
  constructor
  · unfold processFrame
    simp only [h1, if_pos]
    cases hs : jsOrStrOpt opts.jobId (normalizeFrame f).jobId with
    | none => rfl
    | some sjid =>
      by_cases ht : strTruthy sjid = true
      · simp [ht]
      · simp only [Bool.not_eq_true] at ht
        simp [ht]
  · intro hj
    unfold processFrame
    simp only [h1, if_pos]
    have hs : jsOrStrOpt opts.jobId (normalizeFrame f).jobId
        = some opts.jobId := by
      unfold jsOrStrOpt
      simp [hj]
    rw [hs]
    simp [hj]

/-- C1 witness: a completed frame handled by a commit-mode listener bound
to job `j1` yields exactly the emit, fetch, upsert, cancel sequence. -/
theorem listener_completed_order_witness :
    (processFrame ⟨"j1", some "abc123", "owner/repo", some "main", .commit⟩
        ⟨some "completed", some "j1", none, none⟩
        (fun _ => ⟨"j1", "abc123", "p1", 100, .val "findings", "m", 1, 2,
          "completed"⟩) 7).1.head?
      = some (Action.emit "completed"
          { jobId := some "j1", message := some "Scan completed",
            data := some ⟨some "completed", some "j1", none, none⟩ }) ∧
    processFrame ⟨"j1", some "abc123", "owner/repo", some "main", .commit⟩
        ⟨some "completed", some "j1", none, none⟩
        (fun _ => ⟨"j1", "abc123", "p1", 100, .val "findings", "m", 1, 2,
          "completed"⟩) 7
      = ([Action.emit "completed"
            { jobId := some "j1", message := some "Scan completed",
              data := some ⟨some "completed", some "j1", none, none⟩ },
          Action.fetchScan "j1",
          Action.cacheSaveEntry .commit "owner/repo" "abc123"
            { jobId := "j1", timestamp := 7, status := "completed",
              resolved := true, resolved_timestamp := 7,
              repository := "owner/repo", branch := "main",
              results := .val "findings" },
          Action.cancelReader], true) := by
  have h := listener_completed_order
    ⟨"j1", some "abc123", "owner/repo", some "main", .commit⟩
    ⟨some "completed", some "j1", none, none⟩
    (fun _ => ⟨"j1", "abc123", "p1", 100, .val "findings", "m", 1, 2,
      "completed"⟩) 7 (by decide)
  exact ⟨h.1, h.2 (by decide)⟩

/-! ## Claim C2: dual-channel failure reporting on initiation -/

/-- C2 counterexample: the claim requires every initiation operation to
emit an `error` event before raising on a non-success HTTP status, but
`scanCommit` on a 500 response raises without emitting anything: its
action trace is empty. -/
theorem scanCommit_no_error_event_counterexample :
    (500 ≠ 200) ∧
    scanCommitM ⟨"abc123", "owner/repo", some "main", "u1"⟩
        ⟨500, "Internal Server Error", "", ""⟩ 0
      = ([], Except.error
          "Failed to scan commit: Internal Server Error") := by
  exact ⟨by decide, rfl⟩

/-- C2 (amended): on every non-success HTTP status both initiation
operations raise an error to their caller, but only `scanRepository`
additionally emits an `error` event before raising; `scanCommit` raises
without emitting any event. -/
theorem initiation_failure_channels (cp : CommitScanPayload)
    (rp : RepositoryScanPayload) (resp : InitHttpResponse) (now : Nat)
    (h : resp.status ≠ 200) :
    scanCommitM cp resp now
      = ([], Except.error ("Failed to scan commit: " ++ resp.statusText)) ∧
    scanRepositoryM rp resp now
      = ([Action.emit "error"
            { jobId := some rp.repository,
              message := some ("Failed to scan repository: "
                ++ resp.statusText),
              data := none }],
         Except.error ("Failed to scan repository: " ++ resp.statusText))
    := by
  constructor
  · unfold scanCommitM
    simp [h]
  · unfold scanRepositoryM
    simp [h]

/-- C2 witness: the amended theorem at a concrete 503 response. -/
theorem initiation_failure_channels_witness :
    scanCommitM ⟨"abc123", "owner/repo", some "main", "u1"⟩
        ⟨503, "Service Unavailable", "", ""⟩ 3
      = ([], Except.error "Failed to scan commit: Service Unavailable") ∧
    scanRepositoryM ⟨"u1", "owner/repo", some "main"⟩
        ⟨503, "Service Unavailable", "", ""⟩ 3
      = ([Action.emit "error"
            { jobId := some "owner/repo",
              message := some
                "Failed to scan repository: Service Unavailable",
              data := none }],
         Except.error "Failed to scan repository: Service Unavailable") :=
  initiation_failure_channels ⟨"abc123", "owner/repo", some "main", "u1"⟩
    ⟨"u1", "owner/repo", some "main"⟩ ⟨503, "Service Unavailable", "", ""⟩
    3 (by decide)

/-! ## Claim C5: scanId-to-jobId promotion -/

/-- C5 counterexample: for an error-type frame carrying `scanId` and no
`jobId`, the promotion does rewrite the frame, but the emitted event's
top-level `jobId` is the listener's configured job id, not the original
`scanId` — contradicting the claim that every event emitted for the frame
carries `jobId` equal to the original `scanId`.  Additionally, a frame
whose `scanId` field is present but empty is not normalized at all: the
`scanId` field remains. -/
theorem scanId_promotion_counterexample :
    (processFrame ⟨"job-1", none, "owner/repo", none, .repo⟩
        ⟨some "error", none, some "scan-9", some "boom"⟩
        (fun _ => ⟨"x", "", "", 0, .nullVal, "", 0, 0, ""⟩) 0).1
      = [Action.emit "error"
          { jobId := some "job-1", message := some "boom",
            data := some ⟨some "error", some "scan-9", none,
              some "boom"⟩ }] ∧
    (some "job-1" : Option String) ≠ some "scan-9" ∧
    normalizeFrame ⟨some "progress", none, some "", some "m"⟩
      = ⟨some "progress", none, some "", some "m"⟩ := by
  refine ⟨by decide, by decide, by decide⟩

/-- C5 (amended): for every parsed frame carrying a non-empty `scanId`
and no truthy `jobId`, the `scanId` is promoted to `jobId` before any
classification and the frame object no longer contains a `scanId` field;
the events emitted for `progress`/`connected` frames (and the `completed`
event) carry top-level `jobId` equal to the original `scanId`, while for
`error`-type frames the emitted event's top-level `jobId` is the
listener's configured job id (or `"unknown"`), the normalized frame being
attached as the event payload. -/
theorem scanId_promotion (f : Frame) (s : String)
    (h1 : f.scanId = some s) (h2 : s ≠ "")
    (h3 : optTruthy f.jobId = false) :
    normalizeFrame f = { f with jobId := some s, scanId := none } ∧
    (∀ (opts : ListenerOptions) (api : String → ScanApiJobResponse)
        (now : Nat),
      f.type = some "progress" ∨ f.type = some "connected" →
      (processFrame opts f api now).1
        = [Action.emit "update"
            { jobId := some s, message := f.message,
              data := some { f with jobId := some s, scanId := none } }]) ∧
    (∀ (opts : ListenerOptions) (api : String → ScanApiJobResponse)
        (now : Nat),
      f.type = some "error" →
      (processFrame opts f api now).1
        = [Action.emit "error"
            { jobId := some (jsOrStr opts.jobId "unknown"),
              message := f.message,
              data := some { f with jobId := some s, scanId := none } }]) ∧
    (∀ (opts : ListenerOptions) (api : String → ScanApiJobResponse)
        (now : Nat),
      f.type = some "completed" →
      (processFrame opts f api now).1.head?
        = some (Action.emit "completed"
            { jobId := some s, message := some "Scan completed",
              data := some { f with jobId := some s, scanId := none } }))
    := by
  have hnorm : normalizeFrame f = { f with jobId := some s, scanId := none }
      := by
    unfold normalizeFrame
    rw [h1]
    have hsome : optTruthy (some s) = true := by
      simp [optTruthy, strTruthy, h2]
    simp [hsome, h3]
  refine ⟨hnorm, ?_, ?_, ?_⟩
  · intro opts api now htype
    unfold processFrame
    rw [hnorm]
    rcases htype with h | h <;> simp [h]
  · intro opts api now htype
    unfold processFrame
    rw [hnorm]
    simp [htype]
  · intro opts api now htype
    unfold processFrame
    rw [hnorm]
    simp only [htype, if_pos]
    by_cases hj : strTruthy opts.jobId = true
    · simp [jsOrStrOpt, hj]
    · have hempty : opts.jobId = "" := by
        simpa [strTruthy] using hj
      simp [jsOrStrOpt, hempty, strTruthy, h2]

/-- C5 witness: the amended theorem at a progress frame carrying
`scanId = "scan-9"` and no `jobId`. -/
theorem scanId_promotion_witness :
    normalizeFrame ⟨some "progress", none, some "scan-9", some "50%"⟩
      = ⟨some "progress", some "scan-9", none, some "50%"⟩ ∧
    (processFrame ⟨"job-1", none, "owner/repo", none, .repo⟩
        ⟨some "progress", none, some "scan-9", some "50%"⟩
        (fun _ => ⟨"x", "", "", 0, .nullVal, "", 0, 0, ""⟩) 0).1
      = [Action.emit "update"
          { jobId := some "scan-9", message := some "50%",
            data := some ⟨some "progress", some "scan-9", none,
              some "50%"⟩ }] := by
  have h := scanId_promotion
    ⟨some "progress", none, some "scan-9", some "50%"⟩ "scan-9"
    rfl (by decide) rfl
  exact ⟨h.1, h.2.1 ⟨"job-1", none, "owner/repo", none, .repo⟩
    (fun _ => ⟨"x", "", "", 0, .nullVal, "", 0, 0, ""⟩) 0 (Or.inl rfl)⟩

/-! ## Claim C6: malformed frames do not terminate the stream -/

/-- C6: a `data: `-prefixed line whose payload fails to parse produces
exactly one `error` event and does not stop the stream loop; a subsequent
valid `progress` frame in the same stream still yields an `update`
event. -/
theorem stream_malformed_line (parse : String → Option Frame)
    (opts : ListenerOptions) (api : String → ScanApiJobResponse)
    (now : Nat) (bad good : String) (f : Frame)
    (h1 : jsStartsWith bad "data: " = true)
    (h2 : parse (strDrop bad 6) = none)
    (h3 : jsStartsWith good "data: " = true)
    (h4 : parse (strDrop good 6) = some f)
    (h5 : f.type = some "progress") :
    processLine parse opts api now bad
      = ([Action.emit "error"
            { jobId := some (jsOrStr opts.jobId "unknown"),
              message := some "Failed to parse SSE data", data := none }],
         false) ∧
    processLines parse opts api now [bad, good]
      = [Action.emit "error"
          { jobId := some (jsOrStr opts.jobId "unknown"),
            message := some "Failed to parse SSE data", data := none },
         Action.emit "update"
          { jobId := (normalizeFrame f).jobId, message := f.message,
            data := some (normalizeFrame f) }] := by
  have hline : processLine parse opts api now bad
      = ([Action.emit "error"
            { jobId := some (jsOrStr opts.jobId "unknown"),
              message := some "Failed to parse SSE data", data := none }],
         false) := by
    unfold processLine
    simp [h1, h2]
  refine ⟨hline, ?_⟩
  have hgood : processLine parse opts api now good
      = ([Action.emit "update"
            { jobId := (normalizeFrame f).jobId, message := f.message,
              data := some (normalizeFrame f) }], false) := by
    unfold processLine
    simp only [h3, if_pos, h4]
    unfold processFrame
    simp [normalizeFrame_type, normalizeFrame_message, h5]
  simp only [processLines, hline, hgood]
  simp

/-- C6 witness: a concrete malformed line followed by a valid progress
frame, with a concrete parse function. -/
theorem stream_malformed_line_witness :
    processLines
        (fun s => if s = "ok" then
          some ⟨some "progress", some "j7", none, some "50%"⟩ else none)
        ⟨"j7", none, "owner/repo", none, .repo⟩
        (fun _ => ⟨"x", "", "", 0, .nullVal, "", 0, 0, ""⟩) 0
        ["data: zzz", "data: ok"]
      = [Action.emit "error"
          { jobId := some "j7",
            message := some "Failed to parse SSE data", data := none },
         Action.emit "update"
          { jobId := some "j7", message := some "50%",
            data := some ⟨some "progress", some "j7", none,
              some "50%"⟩ }] := by
  have h := stream_malformed_line
    (fun s => if s = "ok" then
      some ⟨some "progress", some "j7", none, some "50%"⟩ else none)
    ⟨"j7", none, "owner/repo", none, .repo⟩
    (fun _ => ⟨"x", "", "", 0, .nullVal, "", 0, 0, ""⟩) 0
    "data: zzz" "data: ok" ⟨some "progress", some "j7", none, some "50%"⟩
    (by decide) (by decide) (by decide) (by decide) rfl
  exact h.2

end Vulnzap
